import Mathlib

/-!
Shallow embedding of `youtube_dlc/extractor/vlive.py` (classes `VLiveIE`,
`VLiveChannelIE`, `VLivePlaylistIE`) and proofs about it.

JSON values returned by the platform API are modelled by Lean structures
whose fields are `Option`-typed (a missing JSON key is `none`); JSON numbers
occurring as identifiers and counters are modelled by `Nat`.  HTTP traffic is
modelled by passing the responses the network would deliver as explicit
arguments and, where a claim is about the requests themselves, by returning
an explicit list of the requests performed.
-/

namespace VLive

/-! ## URL matchers

`VLiveIE._VALID_URL` is the regular expression
`https?://(?:(?:www|m)\.)?vlive\.tv/(?:video|embed)/(?P<id>[0-9]+)`, matched
at the start of the URL (`re.match` semantics); the `id` group greedily
captures the digits.  It is translated into a deterministic matcher over
`List Char`; at every alternation point the alternatives start with distinct
characters, so committed choice coincides with backtracking. -/

/-- The `(?P<id>[0-9]+)` group: one or more digits, greedy. -/
def digitsId (cs : List Char) : Option (List Char) :=
  let ds := cs.takeWhile Char.isDigit
  if ds.isEmpty then none else some ds

/-- `(?:video|embed)/` followed by the id group. -/
def vidOrEmbed : List Char → Option (List Char)
  | 'v' :: 'i' :: 'd' :: 'e' :: 'o' :: '/' :: rest => digitsId rest
  | 'e' :: 'm' :: 'b' :: 'e' :: 'd' :: '/' :: rest => digitsId rest
  | _ => none

/-- `vlive\.tv/` followed by the path alternation. -/
def hostPath : List Char → Option (List Char)
  | 'v' :: 'l' :: 'i' :: 'v' :: 'e' :: '.' :: 't' :: 'v' :: '/' :: rest => vidOrEmbed rest
  | _ => none

/-- `(?:(?:www|m)\.)?` followed by the host. -/
def afterSlashes : List Char → Option (List Char)
  | 'w' :: 'w' :: 'w' :: '.' :: rest => hostPath rest
  | 'm' :: '.' :: rest => hostPath rest
  | rest => hostPath rest

/-- `https?://` followed by the rest of the pattern. -/
def matchVLiveIdL : List Char → Option (List Char)
  | 'h' :: 't' :: 't' :: 'p' :: 's' :: ':' :: '/' :: '/' :: rest => afterSlashes rest
  | 'h' :: 't' :: 't' :: 'p' :: ':' :: '/' :: '/' :: rest => afterSlashes rest
  | _ => none

/-- Embeds `VLiveIE._VALID_URL` matching as used by `self._match_id(url)`:
the extracted `id` group, or `none` when the URL does not match. -/
def matchVLiveId (url : String) : Option String :=
  (matchVLiveIdL url.data).map String.mk

/-! `VLiveChannelIE._VALID_URL` is
`https?://(?:channels\.vlive\.tv|(?:(?:www|m)\.)?vlive\.tv/channel)/(?P<id>[0-9A-Z]+)`. -/

/-- The character class `[0-9A-Z]`. -/
def isChanChar (c : Char) : Bool := c.isDigit || c.isUpper

/-- `/` followed by the `(?P<id>[0-9A-Z]+)` group. -/
def chanSlashId : List Char → Option (List Char)
  | '/' :: rest =>
    let ds := rest.takeWhile isChanChar
    if ds.isEmpty then none else some ds
  | _ => none

/-- `channel` (the literal path component) followed by `/` and the id group. -/
def chanWord : List Char → Option (List Char)
  | 'c' :: 'h' :: 'a' :: 'n' :: 'n' :: 'e' :: 'l' :: rest => chanSlashId rest
  | _ => none

/-- `vlive\.tv/channel` followed by `/` and the id group. -/
def chanMain : List Char → Option (List Char)
  | 'v' :: 'l' :: 'i' :: 'v' :: 'e' :: '.' :: 't' :: 'v' :: '/' :: rest => chanWord rest
  | _ => none

/-- `vlive\.tv` (after the `channels.` label) followed by `/` and the id. -/
def chanHostTail : List Char → Option (List Char)
  | 'v' :: 'l' :: 'i' :: 'v' :: 'e' :: '.' :: 't' :: 'v' :: rest => chanSlashId rest
  | _ => none

/-- The host alternation `channels\.vlive\.tv|(?:(?:www|m)\.)?vlive\.tv/channel`. -/
def chanHost : List Char → Option (List Char)
  | 'c' :: 'h' :: 'a' :: 'n' :: 'n' :: 'e' :: 'l' :: 's' :: '.' :: rest => chanHostTail rest
  | 'w' :: 'w' :: 'w' :: '.' :: rest => chanMain rest
  | 'm' :: '.' :: rest => chanMain rest
  | rest => chanMain rest

/-- `https?://` followed by the host alternation. -/
def matchChannelCodeL : List Char → Option (List Char)
  | 'h' :: 't' :: 't' :: 'p' :: 's' :: ':' :: '/' :: '/' :: rest => chanHost rest
  | 'h' :: 't' :: 't' :: 'p' :: ':' :: '/' :: '/' :: rest => chanHost rest
  | _ => none

/-- Embeds `VLiveChannelIE._VALID_URL` matching: the extracted channel code. -/
def matchChannelCode (url : String) : Option String :=
  (matchChannelCodeL url.data).map String.mk

/-! ## Login handler (`VLiveIE._login`) -/

/-- An HTTP request performed by the module, in the order issued. -/
inductive Action
  | getPage (url : String)
  | postForm (url : String) (data : List (String × String))
  | getJson (url : String)
deriving DecidableEq, Repr

/-- The nested `login_info['message']` object of the `loginInfo` endpoint. -/
structure LoginMessage where
  login : Option Bool
deriving DecidableEq, Repr

/-- The JSON response of `https://www.vlive.tv/auth/loginInfo`. -/
structure LoginInfoResp where
  message : Option LoginMessage
deriving DecidableEq, Repr

/-- `try_get(login_info, lambda x: x['message']['login'], bool) or False`. -/
def isLoggedInFlag (r : LoginInfoResp) : Bool :=
  (r.message.bind (fun m => m.login)).getD false

inductive LoginOutcome
  | noop
  | success
  | loginError (msg : String) (expected : Bool)
deriving DecidableEq, Repr

def LOGIN_URL : String := "https://www.vlive.tv/auth/email/login"

def LOGIN_INFO_URL : String := "https://www.vlive.tv/auth/loginInfo"

/-- Embeds `VLiveIE._login`.  `email`/`password` are the credentials from
`_get_login_info`; `loginInfo` is the JSON the `loginInfo` endpoint would
return.  The second component lists the HTTP requests issued, in order. -/
def vlive_login (email password : Option String) (loginInfo : LoginInfoResp) :
    LoginOutcome × List Action :=
  match email, password with
  | some e, some p =>
    ((if isLoggedInFlag loginInfo then .success
      else .loginError "Unable to log in" true),
     [.getPage LOGIN_URL,
      .postForm LOGIN_URL [("email", e), ("pwd", p)],
      .getJson LOGIN_INFO_URL])
  | _, _ => (.noop, [])

/-! ## Post-metadata fetch with 403 handling (`VLiveIE._real_extract`, try/except) -/

/-- A `compat_HTTPError` cause: the status code and the JSON-decoded response
body, modelled as a string-valued association list. -/
structure HTTPErrorCause where
  code : Nat
  body : List (String × String)
deriving DecidableEq, Repr

/-- An `ExtractorError` as caught by the `except` clause: its message, its
`expected` flag and its optional `compat_HTTPError` cause. -/
structure ExtractorErrorE where
  msg : String
  expected : Bool
  cause : Option HTTPErrorCause
deriving DecidableEq, Repr

/-- JSON field access `json.loads(body)['message']` on the association-list
model of the decoded body. -/
def bodyMessage (body : List (String × String)) : Option String :=
  (body.find? (fun kv => kv.1 = "message")).map (fun kv => kv.2)

/-- The fields of `officialVideo` requested by the `fields` parameter of the
`officialVideoPost` call.  Missing JSON keys are `none`; numeric JSON values
are `Nat`. -/
structure OfficialVideo where
  commentCount : Option Nat
  exposeStatus : Option String
  likeCount : Option Nat
  playCount : Option Nat
  playTime : Option Nat
  status : Option String
  title : Option String
  type : Option String
  vodId : Option String
deriving DecidableEq, Repr

structure Author where
  nickname : Option String
deriving DecidableEq, Repr

structure ChannelInfo where
  channelCode : Option String
  channelName : Option String
deriving DecidableEq, Repr

/-- The `officialVideoPost` response.  `post['officialVideo']` is accessed
with `[]` (a missing key would be a crash), so it is a required field. -/
structure Post where
  author : Option Author
  channel : Option ChannelInfo
  officialVideo : OfficialVideo
deriving DecidableEq, Repr

/-- Result of the guarded primary metadata call. -/
inductive FetchResult
  | ok (post : Post)
  | loginRequired (msg : String)
  | err (e : ExtractorErrorE)
  | keyErrorCrash
deriving DecidableEq, Repr

/-- Embeds the `try`/`except ExtractorError` around the
`officialVideoPost` call in `VLiveIE._real_extract`: a 403 `compat_HTTPError`
cause is re-raised via `self.raise_login_required` with the `message` field
of the decoded error body; every other error is re-raised unchanged
(`raise`).  A 403 body without a `message` key would raise `KeyError`. -/
def handlePostFetch (r : Except ExtractorErrorE Post) : FetchResult :=
  match r with
  | .ok post => .ok post
  | .error e =>
    match e.cause with
    | some he =>
      if he.code = 403 then
        match bodyMessage he.body with
        | some m => .loginRequired m
        | none => .keyErrorCrash
      else .err e
    | none => .err e

/-! ## Response normalizer for a single video (`VLiveIE._real_extract`) -/

/-- `get_common_fields()` in `VLiveIE._real_extract`. -/
structure CommonFields where
  title : Option String
  creator : Option String
  channel : Option String
  channel_id : Option String
  duration : Option Nat
  view_count : Option Nat
  like_count : Option Nat
  comment_count : Option Nat
deriving DecidableEq, Repr

/-- Embeds `get_common_fields` (`post.get('channel') or {}`, optional
access everywhere, `int_or_none` on the numeric fields). -/
def get_common_fields (post : Post) : CommonFields where
  title := post.officialVideo.title
  creator := post.author.bind (fun a => a.nickname)
  channel := post.channel.bind (fun c => c.channelName)
  channel_id := post.channel.bind (fun c => c.channelCode)
  duration := post.officialVideo.playTime
  view_count := post.officialVideo.playCount
  like_count := post.officialVideo.likeCount
  comment_count := post.officialVideo.commentCount

/-- Modelled from the spec: `InfoExtractor._live_title` (shared extractor
base, not under `src/`), "a standard 'is live' annotation applied to the raw
title". -/
def live_title (t : String) : String := t ++ " (Live)"

/-- Outcome of the status branching in `VLiveIE._real_extract`.
`extractorError` is a raised `ExtractorError (msg, expected)`;
`pythonCrash` is a non-`ExtractorError` exception (`KeyError` from a `[]`
access on a missing key, or `TypeError` from `'Unknown status ' + None`);
`noResult` is the implicit `return None` reached when `type` is neither
`'VOD'` nor `'LIVE'`. -/
inductive VideoResult
  | vod (common : CommonFields) (videoId : String) (vodId : String) (inkey : String)
  | live (common : CommonFields) (title : String) (videoId : String) (streamUrl : String)
  | extractorError (msg : String) (expected : Bool)
  | pythonCrash (msg : String)
  | noResult
deriving DecidableEq, Repr

/-- Embeds the branching on `video.get('type')` / `video.get('status')` /
`video.get('exposeStatus')` in `VLiveIE._real_extract` (lines 141-173).
`inkey` is the `['inkey']` field of the VOD inkey endpoint's response and
`streamUrl` the `['result']['adaptiveStreamUrl']` of the live play-info
endpoint's response, fetched only on the branches that use them. -/
def realExtractVideo (post : Post) (videoId : String)
    (inkey : String) (streamUrl : String) : VideoResult :=
  let video := post.officialVideo
  if video.type = some "VOD" then
    match video.vodId with
    | some vodId => .vod (get_common_fields post) videoId vodId inkey
    | none => .pythonCrash "KeyError: vodId"
  else if video.type = some "LIVE" then
    if video.status = some "ON_AIR" then
      match video.title with
      | some t => .live (get_common_fields post) (live_title t) videoId streamUrl
      | none => .pythonCrash "KeyError: title"
    else if video.status = some "ENDED" then
      .extractorError "Uploading for replay. Please wait..." true
    else if video.status = some "RESERVED" then
      .extractorError "Coming soon!" true
    else if video.exposeStatus = some "CANCEL" then
      .extractorError "We are sorry, but the live broadcast has been canceled." true
    else
      match video.status with
      | some s => .extractorError ("Unknown status " ++ s) false
      | none => .pythonCrash "TypeError: can only concatenate str (not NoneType) to str"
  else .noResult

/-! ## Channel listing (`VLiveChannelIE`) -/

def APP_ID : String := "8c6cc7b45d2568fb668be6e05b6e5a3b"

/-- Embeds the query dict built by `VLiveChannelIE._call_api` for
`getChannelVideoList` (`'app_id'`, `'channel' + 'Seq'`, then the
`maxNumOfRows`/`pageNo` entries of the per-call `query`). -/
def getChannelVideoListQuery (channel_seq : Nat) (page_num : Nat) :
    List (String × String) :=
  [("app_id", APP_ID),
   ("channelSeq", Nat.repr channel_seq),
   ("maxNumOfRows", Nat.repr 100),
   ("pageNo", Nat.repr page_num)]

/-- One element of a page's `videoList`; only `videoSeq` is consumed. -/
structure ChannelVideo where
  videoSeq : Option Nat
deriving DecidableEq, Repr

/-- One `getChannelVideoList` response (`['result']`): `channelName` models
`try_get(x['channelInfo']['channelName'], compat_str)`, `videoList` models
`try_get(x['videoList'], list)` (`none` when absent or not a list). -/
structure ChannelPage where
  channelName : Option String
  videoList : Option (List ChannelVideo)
deriving DecidableEq, Repr

/-- The body of the inner `for video in videos` loop:
`video.get('videoSeq')` is skipped when falsy (`None` or `0`), else turned
into `compat_str(video_id)`. -/
def entryOfItem (v : ChannelVideo) : Option String :=
  match v.videoSeq with
  | none => none
  | some 0 => none
  | some n => some (Nat.repr n)

/-- Python truthiness of the `channel_name` variable (`if not channel_name`):
falsy when still `None` or an empty string. -/
def nameFalsy : Option String → Bool
  | none => true
  | some s => s = ""

/-- Embeds the `for page_num in itertools.count(1)` loop of
`VLiveChannelIE._real_extract`.  The list argument holds the successive
`getChannelVideoList` responses the server would return for pages 1, 2, ….
Each iteration first updates `channel_name` if it is still falsy, then
breaks on a falsy `videos` (absent, non-list, or empty `videoList`), else
appends the page's entries.  Returns the final `channel_name` and the
accumulated entry ids. -/
def channelLoop : Option String → List ChannelPage → Option String × List String
  | name, [] => (name, [])
  | name, page :: rest =>
    let name' := if nameFalsy name then page.channelName else name
    match page.videoList with
    | none => (name', [])
    | some [] => (name', [])
    | some vs =>
      let r := channelLoop name' rest
      (r.1, vs.filterMap entryOfItem ++ r.2)

/-- Embeds `VLiveChannelIE._real_extract` after the `decodeChannelCode`
call: the playlist result's id, title and entry ids. -/
def channelExtract (channel_code : String) (pages : List ChannelPage) :
    String × Option String × List String :=
  let r := channelLoop none pages
  (channel_code, r.1, r.2)

/-- The entries a single non-falsy page contributes to the accumulation. -/
def pageEntries (p : ChannelPage) : List String :=
  (p.videoList.getD []).filterMap entryOfItem

/-! ## Playlist (`VLivePlaylistIE`) -/

/-- Strip a literal off the head of a character list. -/
def dropLit : List Char → List Char → Option (List Char)
  | [], cs => some cs
  | _ :: _, [] => none
  | p :: ps, c :: cs => if p = c then dropLit ps cs else none

/-- The characters matched by the regex class `\s`. -/
def isPySpace (c : Char) : Bool :=
  c = ' ' || c = '\t' || c = '\n' || c = '\x0b' || c = '\x0c' || c = '\r'

/-- One element between commas: optional whitespace around a non-empty run
of decimal digits. -/
def parseNatTok (tok : List Char) : Option Nat :=
  let t := (tok.dropWhile isPySpace).reverse.dropWhile isPySpace |>.reverse
  if t ≠ [] ∧ t.all Char.isDigit then
    some (t.foldl (fun a c => 10 * a + (c.toNat - '0'.toNat)) 0)
  else none

/-- One attempt of the pattern `playlistVideoSeqs\s*=\s*(\[[^]]+\])` at the
head of `cs`: the literal, optional whitespace, `=`, optional whitespace,
then a bracketed non-empty run of non-`]` characters.  Returns the captured
group. -/
def seqsAt (cs : List Char) : Option (List Char) :=
  match dropLit "playlistVideoSeqs".data cs with
  | none => none
  | some cs =>
    let cs := cs.dropWhile isPySpace
    match cs with
    | '=' :: cs =>
      let cs := cs.dropWhile isPySpace
      match cs with
      | '[' :: cs =>
        let inner := cs.takeWhile (fun c => c ≠ ']')
        match cs.dropWhile (fun c => c ≠ ']'), inner with
        | ']' :: _, _ :: _ => some ('[' :: inner ++ [']'])
        | _, _ => none
      | _ => none
    | _ => none

/-- Embeds `re.search` for the `playlistVideoSeqs` pattern as invoked by
`self._search_regex(..., default=None, fatal=False)`: the first position
(left to right) where the pattern matches, else `none`. -/
def searchSeqs : List Char → Option String
  | [] => none
  | c :: cs =>
    match seqsAt (c :: cs) with
    | some r => some (String.mk r)
    | none => searchSeqs cs

/-- `json.loads` restricted to the shapes `playlistVideoSeqs` takes in the
page markup: a bracketed comma-separated list of decimal numbers with
optional whitespace (the generic JSON parser is an external collaborator).
`none` models a `json.loads` failure. -/
def parseSeqList (raw : String) : Option (List Nat) :=
  match raw.data with
  | '[' :: rest =>
    match rest.getLast? with
    | some ']' => ((rest.dropLast).splitOn ',').mapM parseNatTok
    | _ => none
  | _ => none

/-- Result of `VLivePlaylistIE._real_extract`: a `url_result` for a single
video, a `playlist_result` (entry video ids and optional title), or a raised
error from `_parse_json`. -/
inductive PlaylistResult
  | singleVideo (videoId : String)
  | playlist (playlistId : String) (entries : List String) (title : Option String)
  | parseError (raw : String)
deriving DecidableEq, Repr

/-- Embeds `VLivePlaylistIE._real_extract` after URL matching.  `noplaylist`
is `self._downloader.params.get('noplaylist')`; `webpage` is the HTML the
playlist page fetch would return; `titleSearch` is the external
`_html_search_regex` collaborator applied with the `multicam_playlist` title
pattern.  The second component lists the URLs fetched by
`_download_webpage`, in order. -/
def playlistExtract (noplaylist : Bool) (videoId playlistId : String)
    (webpage : String) (titleSearch : String → Option String) :
    PlaylistResult × List String :=
  if noplaylist then (.singleVideo videoId, [])
  else
    let url := "http://www.vlive.tv/video/" ++ videoId ++ "/playlist/" ++ playlistId
    match searchSeqs webpage.data with
    | none => (.singleVideo videoId, [url])
    | some raw =>
      match parseSeqList raw with
      | none => (.parseError raw, [url])
      | some ids => (.playlist playlistId (ids.map Nat.repr) (titleSearch webpage), [url])


theorem takeWhile_eq_self_of_all {p : Char → Bool} :
    ∀ {l : List Char}, (∀ c ∈ l, p c) → l.takeWhile p = l
  | [], _ => rfl
  | c :: cs, h => by
    simp only [List.takeWhile_cons, h c (List.mem_cons_self c cs), if_true]
    exact congrArg (c :: ·) (takeWhile_eq_self_of_all fun x hx => h x (List.mem_cons_of_mem c hx))

theorem digitsId_of_all_digits {d : List Char} (hne : d ≠ [])
    (hd : ∀ c ∈ d, c.isDigit) : digitsId d = some d := by
  unfold digitsId
  rw [takeWhile_eq_self_of_all hd]
  simp [List.isEmpty_iff, hne]

/-! Reduction lemmas for the URL matchers, one per literal pattern branch. -/

theorem mv_http (rest : List Char) :
    matchVLiveIdL ('h' :: 't' :: 't' :: 'p' :: ':' :: '/' :: '/' :: rest) = afterSlashes rest := rfl

theorem mv_https (rest : List Char) :
    matchVLiveIdL ('h' :: 't' :: 't' :: 'p' :: 's' :: ':' :: '/' :: '/' :: rest) = afterSlashes rest := rfl

theorem as_www (rest : List Char) :
    afterSlashes ('w' :: 'w' :: 'w' :: '.' :: rest) = hostPath rest := rfl

theorem as_m (rest : List Char) :
    afterSlashes ('m' :: '.' :: rest) = hostPath rest := rfl

theorem as_host (rest : List Char) :
    afterSlashes ('v' :: 'l' :: 'i' :: 'v' :: 'e' :: '.' :: 't' :: 'v' :: '/' :: rest) = vidOrEmbed rest := rfl

theorem hp_step (rest : List Char) :
    hostPath ('v' :: 'l' :: 'i' :: 'v' :: 'e' :: '.' :: 't' :: 'v' :: '/' :: rest) = vidOrEmbed rest := rfl

theorem ve_video (rest : List Char) :
    vidOrEmbed ('v' :: 'i' :: 'd' :: 'e' :: 'o' :: '/' :: rest) = digitsId rest := rfl

theorem ve_embed (rest : List Char) :
    vidOrEmbed ('e' :: 'm' :: 'b' :: 'e' :: 'd' :: '/' :: rest) = digitsId rest := rfl

theorem data_http : "http".data = ['h','t','t','p'] := rfl
theorem data_sep : "://".data = [':','/','/'] := rfl
theorem data_https : "https".data = ['h','t','t','p','s'] := rfl
theorem data_www : "www.".data = ['w','w','w','.'] := rfl
theorem data_m : "m.".data = ['m','.'] := rfl
theorem data_nil : "".data = [] := rfl
theorem data_host : "vlive.tv/".data = ['v','l','i','v','e','.','t','v','/'] := rfl
theorem data_video : "video".data = ['v','i','d','e','o'] := rfl
theorem data_embed : "embed".data = ['e','m','b','e','d'] := rfl
theorem data_slash : "/".data = ['/'] := rfl
theorem data_mk (l : List Char) : (String.mk l).data = l := rfl

/-! Decimal representations (`compat_str` on a JSON number) consist of
digits and are never empty. -/

theorem digitChar_isDigit {m : Nat} (h : m < 10) : (Nat.digitChar m).isDigit := by
  interval_cases m <;> decide

theorem toDigitsCore_all_digits :
    ∀ (fuel n : Nat) (acc : List Char), (∀ c ∈ acc, c.isDigit) →
      ∀ c ∈ Nat.toDigitsCore 10 fuel n acc, c.isDigit := by
  intro fuel
  induction fuel with
  | zero => intro n acc hacc; simpa [Nat.toDigitsCore] using hacc
  | succ f ih =>
    intro n acc hacc c hc
    rw [Nat.toDigitsCore] at hc
    by_cases h0 : n / 10 = 0
    · simp only [h0, if_true] at hc
      rcases List.mem_cons.mp hc with rfl | hmem
      · exact digitChar_isDigit (Nat.mod_lt _ (by norm_num))
      · exact hacc _ hmem
    · simp only [h0, if_false] at hc
      refine ih (n / 10) _ ?_ c hc
      intro x hx
      rcases List.mem_cons.mp hx with rfl | hmem
      · exact digitChar_isDigit (Nat.mod_lt _ (by norm_num))
      · exact hacc _ hmem

theorem toDigitsCore_ne_nil :
    ∀ (fuel n : Nat) (acc : List Char), acc ≠ [] ∨ 0 < fuel →
      Nat.toDigitsCore 10 fuel n acc ≠ [] := by
  intro fuel
  induction fuel with
  | zero =>
    intro n acc h
    rcases h with h | h
    · simpa [Nat.toDigitsCore] using h
    · exact absurd h (by omega)
  | succ f ih =>
    intro n acc _
    rw [Nat.toDigitsCore]
    by_cases h0 : n / 10 = 0
    · simp [h0]
    · simp only [h0, if_false]
      exact ih (n / 10) _ (Or.inl (by simp))

theorem repr_all_digits (n : Nat) : ∀ c ∈ (Nat.repr n).data, c.isDigit :=
  toDigitsCore_all_digits (n + 1) n [] (by simp)

theorem repr_ne_nil (n : Nat) : (Nat.repr n).data ≠ [] :=
  toDigitsCore_ne_nil (n + 1) n [] (Or.inr (Nat.succ_pos n))


theorem digitsId_inv {cs d : List Char} (h : digitsId cs = some d) :
    d ≠ [] ∧ ∀ c ∈ d, c.isDigit := by
  dsimp only [digitsId] at h
  split at h
  · exact absurd h (by simp)
  · rename_i he
    injection h with h
    subst h
    exact ⟨fun hn => he (by simp [hn]), fun c hc => List.mem_takeWhile_imp hc⟩

theorem vidOrEmbed_inv {cs d : List Char} (h : vidOrEmbed cs = some d) :
    d ≠ [] ∧ ∀ c ∈ d, c.isDigit := by
  unfold vidOrEmbed at h
  split at h
  · exact digitsId_inv h
  · exact digitsId_inv h
  · exact absurd h (by simp)

theorem hostPath_inv {cs d : List Char} (h : hostPath cs = some d) :
    d ≠ [] ∧ ∀ c ∈ d, c.isDigit := by
  unfold hostPath at h
  split at h
  · exact vidOrEmbed_inv h
  · exact absurd h (by simp)

theorem afterSlashes_inv {cs d : List Char} (h : afterSlashes cs = some d) :
    d ≠ [] ∧ ∀ c ∈ d, c.isDigit := by
  unfold afterSlashes at h
  split at h
  · exact hostPath_inv h
  · exact hostPath_inv h
  · exact hostPath_inv h

theorem matchVLiveIdL_inv {cs d : List Char} (h : matchVLiveIdL cs = some d) :
    d ≠ [] ∧ ∀ c ∈ d, c.isDigit := by
  unfold matchVLiveIdL at h
  split at h
  · exact afterSlashes_inv h
  · exact afterSlashes_inv h
  · exact absurd h (by simp)

theorem matchVLiveId_inv {url : String} {d : String} (h : matchVLiveId url = some d) :
    d.data ≠ [] ∧ ∀ c ∈ d.data, c.isDigit := by
  unfold matchVLiveId at h
  rcases Option.map_eq_some'.mp h with ⟨l, hl, rfl⟩
  exact matchVLiveIdL_inv hl

theorem isChanChar_alphanum {c : Char} (h : isChanChar c) : c.isAlphanum := by
  unfold isChanChar at h
  rcases Bool.or_eq_true_iff.mp h with h | h
  · simp [Char.isAlphanum, h]
  · simp [Char.isAlphanum, Char.isAlpha, h]

theorem chanSlashId_inv {cs d : List Char} (h : chanSlashId cs = some d) :
    d ≠ [] ∧ ∀ c ∈ d, c.isAlphanum := by
  unfold chanSlashId at h
  split at h
  · dsimp only at h
    split at h
    · exact absurd h (by simp)
    · rename_i he
      injection h with h
      subst h
      exact ⟨fun hn => he (by simp [hn]),
        fun c hc => isChanChar_alphanum (List.mem_takeWhile_imp hc)⟩
  · exact absurd h (by simp)

theorem chanWord_inv {cs d : List Char} (h : chanWord cs = some d) :
    d ≠ [] ∧ ∀ c ∈ d, c.isAlphanum := by
  unfold chanWord at h
  split at h
  · exact chanSlashId_inv h
  · exact absurd h (by simp)

theorem chanMain_inv {cs d : List Char} (h : chanMain cs = some d) :
    d ≠ [] ∧ ∀ c ∈ d, c.isAlphanum := by
  unfold chanMain at h
  split at h
  · exact chanWord_inv h
  · exact absurd h (by simp)

theorem chanHostTail_inv {cs d : List Char} (h : chanHostTail cs = some d) :
    d ≠ [] ∧ ∀ c ∈ d, c.isAlphanum := by
  unfold chanHostTail at h
  split at h
  · exact chanSlashId_inv h
  · exact absurd h (by simp)

theorem chanHost_inv {cs d : List Char} (h : chanHost cs = some d) :
    d ≠ [] ∧ ∀ c ∈ d, c.isAlphanum := by
  unfold chanHost at h
  split at h
  · exact chanHostTail_inv h
  · exact chanMain_inv h
  · exact chanMain_inv h
  · exact chanMain_inv h

theorem matchChannelCodeL_inv {cs d : List Char} (h : matchChannelCodeL cs = some d) :
    d ≠ [] ∧ ∀ c ∈ d, c.isAlphanum := by
  unfold matchChannelCodeL at h
  split at h
  · exact chanHost_inv h
  · exact chanHost_inv h
  · exact absurd h (by simp)

theorem matchChannelCode_inv {url code : String} (h : matchChannelCode url = some code) :
    code.data ≠ [] ∧ ∀ c ∈ code.data, c.isAlphanum := by
  unfold matchChannelCode at h
  rcases Option.map_eq_some'.mp h with ⟨l, hl, rfl⟩
  exact matchChannelCodeL_inv hl


theorem channelLoop_halt_append :
    ∀ (good : List ChannelPage) (name : Option String) (ep : ChannelPage)
      (rest : List ChannelPage),
      (∀ p ∈ good, ∃ v vs, p.videoList = some (v :: vs)) →
      (ep.videoList = none ∨ ep.videoList = some []) →
      (channelLoop name (good ++ ep :: rest)).2 = good.flatMap pageEntries := by
  intro good
  induction good with
  | nil =>
    intro name ep rest _ hep
    rcases hep with hep | hep <;>
      simp [channelLoop, hep]
  | cons p good ih =>
    intro name ep rest hgood hep
    obtain ⟨v, vs, hvl⟩ := hgood p (List.mem_cons_self p good)
    simp only [List.cons_append, channelLoop, hvl]
    rw [List.flatMap_cons]
    simp only [pageEntries, hvl, Option.getD_some]
    simp only [List.append_eq]
    rw [ih _ ep rest (fun q hq => hgood q (List.mem_cons_of_mem p hq)) hep]


/-- Claim C1: a fetched LIVE-type record with status ENDED always raises the replay-pending error, whatever
`exposeStatus` holds. -/
theorem live_ended_replay_pending (post : Post) (videoId inkey streamUrl : String)
    (htype : post.officialVideo.type = some "LIVE")
    (hstatus : post.officialVideo.status = some "ENDED") :
    realExtractVideo post videoId inkey streamUrl =
      .extractorError "Uploading for replay. Please wait..." true := by
  simp [realExtractVideo, htype, hstatus]

theorem live_ended_replay_pending_witness :
    realExtractVideo
      ⟨none, none, ⟨none, some "CANCEL", none, none, none, some "ENDED", some "t", some "LIVE", none⟩⟩
      "123" "ik" "su" =
      .extractorError "Uploading for replay. Please wait..." true :=
  live_ended_replay_pending _ _ _ _ rfl rfl

/-- Claim C2 counterexample: a record whose type is neither VOD nor LIVE produces
no result at all (the implicit `return None`), not a generic error. -/
theorem unknown_type_no_error_cex :
    realExtractVideo
      ⟨none, none, ⟨none, none, none, none, none, some "ENDED", some "t", some "HIGHLIGHT", none⟩⟩
      "1" "ik" "su" = .noResult := rfl

/-- Claim C2 amended: for LIVE-type records with a present but unmatched status and
no CANCEL exposeStatus, the generic unknown-status error is raised. -/
theorem unknown_status_generic_error (post : Post) (videoId inkey streamUrl : String)
    (htype : post.officialVideo.type = some "LIVE")
    (s : String) (hs : post.officialVideo.status = some s)
    (h1 : s ≠ "ON_AIR") (h2 : s ≠ "ENDED") (h3 : s ≠ "RESERVED")
    (hc : post.officialVideo.exposeStatus ≠ some "CANCEL") :
    realExtractVideo post videoId inkey streamUrl =
      .extractorError ("Unknown status " ++ s) false := by
  simp [realExtractVideo, htype, hs, h1, h2, h3, hc]

theorem unknown_status_generic_error_witness :
    realExtractVideo
      ⟨none, none, ⟨none, some "EXPOSED", none, none, none, some "STANDBY", some "t", some "LIVE", none⟩⟩
      "1" "ik" "su" = .extractorError ("Unknown status " ++ "STANDBY") false :=
  unknown_status_generic_error _ _ _ _ rfl "STANDBY" rfl
    (by decide) (by decide) (by decide) (by simp)


/-- Claim C3: channel pages are requested with `maxNumOfRows = 100`; the accumulation
halts on the first falsy page and keeps earlier ids in order, unchanged. -/
theorem channel_pagination_spec (channel_seq page_num : Nat)
    (good : List ChannelPage) (name : Option String) (ep : ChannelPage)
    (rest : List ChannelPage)
    (hgood : ∀ p ∈ good, ∃ v vs, p.videoList = some (v :: vs))
    (hep : ep.videoList = none ∨ ep.videoList = some []) :
    ((getChannelVideoListQuery channel_seq page_num).find?
        (fun kv => kv.1 = "maxNumOfRows")).map (fun kv => kv.2) = some "100"
      ∧ (channelLoop name (good ++ ep :: rest)).2 = good.flatMap pageEntries := by
  exact ⟨rfl, channelLoop_halt_append good name ep rest hgood hep⟩

theorem channel_pagination_spec_witness :
    ((getChannelVideoListQuery 23 7).find?
        (fun kv => kv.1 = "maxNumOfRows")).map (fun kv => kv.2) = some "100"
      ∧ (channelLoop none
          (([⟨some "N", some [⟨some 5⟩, ⟨some 5⟩]⟩] : List ChannelPage) ++
            (⟨none, some []⟩ : ChannelPage) ::
              ([⟨none, some [⟨some 9⟩]⟩] : List ChannelPage))).2 =
        (([⟨some "N", some [⟨some 5⟩, ⟨some 5⟩]⟩] : List ChannelPage)).flatMap pageEntries :=
  channel_pagination_spec 23 7 _ none _ _
    (by intro p hp; simp at hp; subst hp; exact ⟨_, _, rfl⟩)
    (Or.inr rfl)

/-- Claim C10: a channel-listing item with falsy `videoSeq` is skipped silently, with no error and no placeholder, so the entry list can be shorter than the upstream item list. -/
theorem channel_skip_falsy_videoSeq (v : ChannelVideo)
    (hfalsy : v.videoSeq = none ∨ v.videoSeq = some 0)
    (l1 l2 : List ChannelVideo) :
    (l1 ++ v :: l2).filterMap entryOfItem = (l1 ++ l2).filterMap entryOfItem
      ∧ ((l1 ++ v :: l2).filterMap entryOfItem).length < (l1 ++ v :: l2).length
      ∧ (l1 ++ l2 ≠ [] → ∀ (nm : Option String) (name : Option String)
          (rest : List ChannelPage),
          channelLoop name (⟨nm, some (l1 ++ v :: l2)⟩ :: rest) =
            channelLoop name (⟨nm, some (l1 ++ l2)⟩ :: rest)) := by
  have hnone : entryOfItem v = none := by
    rcases hfalsy with h | h <;> simp [entryOfItem, h]
  have hfm : (l1 ++ v :: l2).filterMap entryOfItem = (l1 ++ l2).filterMap entryOfItem := by
    simp [List.filterMap_append, List.filterMap_cons, hnone]
  refine ⟨hfm, ?_, ?_⟩
  · calc ((l1 ++ v :: l2).filterMap entryOfItem).length
        = ((l1 ++ l2).filterMap entryOfItem).length := by rw [hfm]
      _ ≤ (l1 ++ l2).length := List.length_filterMap_le _ _
      _ < (l1 ++ v :: l2).length := by simp
  · intro h12 nm name rest
    obtain ⟨w, ws, hw⟩ : ∃ w ws, l1 ++ l2 = w :: ws := by
      cases hl : l1 ++ l2 with
      | nil => exact absurd hl h12
      | cons w ws => exact ⟨w, ws, rfl⟩
    have hv : ∃ u us, l1 ++ v :: l2 = u :: us := by
      cases l1 with
      | nil => exact ⟨v, l2, rfl⟩
      | cons a l1 => exact ⟨a, l1 ++ v :: l2, rfl⟩
    obtain ⟨u, us, hu⟩ := hv
    simp only [channelLoop, hu, hw]
    rw [← hu, ← hw, hfm]

theorem channel_skip_falsy_videoSeq_witness :
    (([⟨some 4⟩] : List ChannelVideo) ++ (⟨none⟩ : ChannelVideo) :: ([⟨some 6⟩] : List ChannelVideo)).filterMap entryOfItem =
        (([⟨some 4⟩] : List ChannelVideo) ++ ([⟨some 6⟩] : List ChannelVideo)).filterMap entryOfItem
      ∧ ((([⟨some 4⟩] : List ChannelVideo) ++ (⟨none⟩ : ChannelVideo) :: ([⟨some 6⟩] : List ChannelVideo)).filterMap entryOfItem).length <
        (([⟨some 4⟩] : List ChannelVideo) ++ (⟨none⟩ : ChannelVideo) :: ([⟨some 6⟩] : List ChannelVideo)).length
      ∧ (([⟨some 4⟩] : List ChannelVideo) ++ ([⟨some 6⟩] : List ChannelVideo) ≠ [] → ∀ (nm : Option String)
          (name : Option String) (rest : List ChannelPage),
          channelLoop name (⟨nm, some (([⟨some 4⟩] : List ChannelVideo) ++ (⟨none⟩ : ChannelVideo) :: ([⟨some 6⟩] : List ChannelVideo))⟩ :: rest) =
            channelLoop name (⟨nm, some (([⟨some 4⟩] : List ChannelVideo) ++ ([⟨some 6⟩] : List ChannelVideo))⟩ :: rest)) :=
  channel_skip_falsy_videoSeq ⟨none⟩ (Or.inl rfl) [⟨some 4⟩] [⟨some 6⟩]

/-- Claim C4: a 403-caused error is re-raised as login-required carrying the
body's message; any other error propagates unchanged. -/
theorem http403_login_required (r : Except ExtractorErrorE Post) :
    (∀ p, r = .ok p → handlePostFetch r = .ok p)
      ∧ (∀ e he m, r = .error e → e.cause = some he → he.code = 403 →
          bodyMessage he.body = some m → handlePostFetch r = .loginRequired m)
      ∧ (∀ e, r = .error e →
          (∀ he, e.cause = some he → he.code ≠ 403) →
          handlePostFetch r = .err e) := by
  refine ⟨?_, ?_, ?_⟩
  · rintro p rfl; rfl
  · rintro e he m rfl hcause h403 hmsg
    simp [handlePostFetch, hcause, h403, hmsg]
  · rintro e rfl hno
    unfold handlePostFetch
    cases hc : e.cause with
    | none => simp [hc]
    | some he => simp [hc, hno he hc]

theorem http403_login_required_witness :
    handlePostFetch (.error ⟨"Unable to download JSON metadata", false,
        some ⟨403, [("message", "This video is only available for CH+ subscribers")]⟩⟩) =
      .loginRequired "This video is only available for CH+ subscribers" :=
  (http403_login_required _).2.1 _ _ _ rfl rfl rfl rfl


/-- Claim C5: with no `playlistVideoSeqs` in the page, extraction falls back to a
single-video result, identical to the `--no-playlist` opt-out result. -/
theorem playlist_fallback_no_seqs (videoId playlistId webpage : String)
    (titleSearch : String → Option String)
    (hnone : searchSeqs webpage.data = none) :
    (playlistExtract false videoId playlistId webpage titleSearch).1 =
        .singleVideo videoId
      ∧ (playlistExtract false videoId playlistId webpage titleSearch).1 =
        (playlistExtract true videoId playlistId webpage titleSearch).1 := by
  constructor <;> simp [playlistExtract, hnone]

theorem playlist_fallback_no_seqs_witness :
    (playlistExtract false "22867" "22912" "<html><body>no list</body></html>"
        (fun _ => none)).1 = .singleVideo "22867"
      ∧ (playlistExtract false "22867" "22912" "<html><body>no list</body></html>"
          (fun _ => none)).1 =
        (playlistExtract true "22867" "22912" "<html><body>no list</body></html>"
          (fun _ => none)).1 :=
  playlist_fallback_no_seqs "22867" "22912" _ _ rfl

/-- Claim C6: with the no-playlist flag, the result is the single-video reference
and no webpage is fetched. -/
theorem noplaylist_no_fetch (videoId playlistId webpage : String)
    (titleSearch : String → Option String) :
    playlistExtract true videoId playlistId webpage titleSearch =
      (.singleVideo videoId, []) := rfl

/-- Claim C7: login is a no-op without both credentials; with both, the login page
is fetched before the form post, and success is decided by the loginInfo
boolean, failure raising an expected error. -/
theorem login_behaviour (email password : Option String) (resp : LoginInfoResp) :
    (email = none ∨ password = none → vlive_login email password resp = (.noop, []))
      ∧ (∀ e p, email = some e → password = some p →
          vlive_login email password resp =
            ((if isLoggedInFlag resp then .success
              else .loginError "Unable to log in" true),
             [.getPage LOGIN_URL,
              .postForm LOGIN_URL [("email", e), ("pwd", p)],
              .getJson LOGIN_INFO_URL])) := by
  constructor
  · rintro (rfl | rfl)
    · cases password <;> rfl
    · cases email <;> rfl
  · rintro e p rfl rfl; rfl

theorem login_behaviour_witness :
    vlive_login none (some "pw") ⟨some ⟨some true⟩⟩ = (.noop, [])
      ∧ vlive_login (some "a@b.c") (some "pw") ⟨some ⟨some false⟩⟩ =
          (.loginError "Unable to log in" true,
           [.getPage LOGIN_URL,
            .postForm LOGIN_URL [("email", "a@b.c"), ("pwd", "pw")],
            .getJson LOGIN_INFO_URL]) :=
  ⟨(login_behaviour none (some "pw") ⟨some ⟨some true⟩⟩).1 (Or.inl rfl),
   by simpa using
     (login_behaviour (some "a@b.c") (some "pw") ⟨some ⟨some false⟩⟩).2 "a@b.c" "pw" rfl rfl⟩

/-- Claim C8: every scheme/subdomain/path-kind combination of a single-video URL
yields the same id: exactly the digits after `/video/` or `/embed/`. -/
theorem url_matcher_id_uniform (d : List Char) (hne : d ≠ [])
    (hdig : ∀ c ∈ d, c.isDigit) (scheme sub kind : String)
    (hs : scheme = "http" ∨ scheme = "https")
    (hsub : sub = "" ∨ sub = "www." ∨ sub = "m.")
    (hk : kind = "video" ∨ kind = "embed") :
    matchVLiveId (scheme ++ "://" ++ sub ++ "vlive.tv/" ++ kind ++ "/" ++ String.mk d) =
      some (String.mk d) := by
  rcases hs with rfl | rfl <;> rcases hsub with rfl | rfl | rfl <;> rcases hk with rfl | rfl <;>
    (simp only [matchVLiveId, String.data_append, data_http, data_https, data_sep, data_www,
      data_m, data_nil, data_host, data_video, data_embed, data_slash, data_mk,
      List.cons_append, List.nil_append, List.append_nil, mv_http, mv_https, as_www, as_m,
      as_host, hp_step, ve_video, ve_embed, digitsId_of_all_digits hne hdig]; rfl)

theorem url_matcher_id_uniform_witness :
    matchVLiveId ("https" ++ "://" ++ "m." ++ "vlive.tv/" ++ "embed" ++ "/" ++
        String.mk ['1','2','9','1','0','0']) =
      some (String.mk ['1','2','9','1','0','0']) :=
  url_matcher_id_uniform ['1','2','9','1','0','0'] (by decide) (by decide) _ _ _
    (Or.inr rfl) (Or.inr (Or.inr rfl)) (Or.inr rfl)


theorem entryOfItem_inv {v : ChannelVideo} {s : String}
    (h : entryOfItem v = some s) : s.data ≠ [] ∧ ∀ c ∈ s.data, c.isDigit := by
  unfold entryOfItem at h
  split at h
  · exact absurd h (by simp)
  · exact absurd h (by simp)
  · injection h with h
    subst h
    exact ⟨repr_ne_nil _, repr_all_digits _⟩

theorem playlistExtract_entries_inv
    {noplaylist : Bool} {videoId playlistId webpage : String}
    {titleSearch : String → Option String} {plid : String}
    {entries : List String} {title : Option String}
    (h : (playlistExtract noplaylist videoId playlistId webpage titleSearch).1 =
      .playlist plid entries title) :
    ∀ s ∈ entries, s.data ≠ [] ∧ ∀ c ∈ s.data, c.isDigit := by
  cases noplaylist with
  | true => simp [playlistExtract] at h
  | false =>
    unfold playlistExtract at h
    simp only [Bool.false_eq_true, if_false] at h
    cases hss : searchSeqs webpage.data with
    | none => rw [hss] at h; simp at h
    | some raw =>
      rw [hss] at h
      dsimp only at h
      cases hps : parseSeqList raw with
      | none => rw [hps] at h; simp at h
      | some ids =>
        rw [hps] at h
        simp only [PlaylistResult.playlist.injEq] at h
        obtain ⟨-, hent, -⟩ := h
        subst hent
        intro s hs
        rcases List.mem_map.mp hs with ⟨n, -, rfl⟩
        exact ⟨repr_ne_nil n, repr_all_digits n⟩

/-- Claim C9: ids matched from single-video URLs, emitted as channel-listing
entries, or emitted as playlist entries are non-empty digit strings; matched
channel codes are non-empty alphanumeric strings. -/
theorem identifier_invariants :
    (∀ url d, matchVLiveId url = some d → d.data ≠ [] ∧ ∀ c ∈ d.data, c.isDigit)
      ∧ (∀ url code, matchChannelCode url = some code →
          code.data ≠ [] ∧ ∀ c ∈ code.data, c.isAlphanum)
      ∧ (∀ v s, entryOfItem v = some s → s.data ≠ [] ∧ ∀ c ∈ s.data, c.isDigit)
      ∧ (∀ (noplaylist : Bool) (videoId playlistId webpage : String)
          (titleSearch : String → Option String) (plid : String)
          (entries : List String) (title : Option String),
          (playlistExtract noplaylist videoId playlistId webpage titleSearch).1 =
            .playlist plid entries title →
          ∀ s ∈ entries, s.data ≠ [] ∧ ∀ c ∈ s.data, c.isDigit) :=
  ⟨fun _ _ h => matchVLiveId_inv h,
   fun _ _ h => matchChannelCode_inv h,
   fun _ _ h => entryOfItem_inv h,
   fun _ _ _ _ _ _ _ _ h => playlistExtract_entries_inv h⟩

theorem identifier_invariants_witness :
    (("1326" : String).data ≠ [] ∧ ∀ c ∈ ("1326" : String).data, c.isDigit)
      ∧ (("FCD4B" : String).data ≠ [] ∧ ∀ c ∈ ("FCD4B" : String).data, c.isAlphanum) :=
  ⟨identifier_invariants.1 "http://www.vlive.tv/video/1326" "1326" rfl,
   identifier_invariants.2.1 "http://channels.vlive.tv/FCD4B" "FCD4B" rfl⟩

end VLive
